import Mathlib

/-!
Verification development for the Apollo macOS screen-capture core:
the frame hand-off protocol, the retain discipline around the buffer swap,
the permission probe, the encode-device selection, and the stream
start/stop state machine.

Shallow embedding of:
  - src/platform/macos/display.mm      (sc_display_t: capture, dummy_img,
                                        make_avcodec_encode_device, alloc_img,
                                        platf::display)
  - src/platform/macos/screencapture.mm (ApolloScreenCapture: capture:,
                                        stopCapture, stream:didOutputSampleBuffer:,
                                        initWithDisplay: display resolution)
  - src/platform/macos/nv12_zero_device.cpp (convert, init)

Native buffers are modelled by numeric identities; reference counts are
explicit naturals; machine ints that are nonnegative in the source
(size_t query results cast to int) are modelled as Nat, so C integer
division on them coincides with Nat division.
-/

namespace Apollo

/-- A delivered native frame: the values the `CMSampleBufferRef` delivery and
the `CVPixelBufferGet{Width,Height,BytesPerRow}` / base-address queries expose
to the frame callback.  `sampleId` and `bufId` are the identities of the native
sample buffer and of the pixel buffer extracted from it. -/
structure Frame where
  sampleId : Nat
  bufId : Nat
  dataPtr : Nat
  width : Nat
  height : Nat
  rowPitch : Nat
deriving DecidableEq, Repr

/-- `av_pixel_buf_t`: wrapper owning one native pixel buffer; its inner `buf`
handle may be null (modelled as `none`). -/
structure av_pixel_buf_t where
  buf : Option Nat
deriving DecidableEq, Repr

/-- `img_t` / `av_img_t`: the consumer-visible image.  `sampleBuffer` and
`pixelBuffer` are the owned wrapper references (by identity); `data` is the raw
pointer into the pixel buffer. -/
structure Img where
  width : Nat
  height : Nat
  rowPitch : Nat
  pixelPitch : Nat
  data : Nat
  sampleBuffer : Option Nat
  pixelBuffer : Option av_pixel_buf_t
deriving DecidableEq, Repr

/-- `sc_display_t::alloc_img` (display.mm): a freshly constructed,
zero-initialized `av_img_t` bound to no native buffer. -/
def alloc_img : Img :=
  { width := 0, height := 0, rowPitch := 0, pixelPitch := 0, data := 0,
    sampleBuffer := none, pixelBuffer := none }

/-- The field-overwrite step of the hand-off protocol (display.mm,
`capture` lines 58-65 and `dummy_img` lines 120-127): install the new sample
wrapper, new pixel wrapper and new data pointer, then overwrite
width/height/row_pitch by querying the new pixel buffer and re-derive
pixel_pitch as `row_pitch / width` (C integer division on the just-written
fields). -/
def handoffImage (img : Img) (f : Frame) : Img :=
  { img with
    sampleBuffer := some f.sampleId
    pixelBuffer := some ⟨some f.bufId⟩
    data := f.dataPtr
    width := f.width
    height := f.height
    rowPitch := f.rowPitch
    pixelPitch := f.rowPitch / f.width }

/-- Outcome of one invocation of the `capture` frame callback block:
the boolean the block returns to the native layer (`true` = continue
capturing), the image handed to the consumer (if `push_captured_image_cb`
accepted it), and the state of the pulled image after the call. -/
structure CbOutcome where
  cont : Bool
  pushed : Option Img
  imgAfter : Option Img
deriving DecidableEq, Repr

/-- The frame callback block registered by `sc_display_t::capture`
(display.mm lines 42-74): pull a free image (failure drops the frame and
returns `false`), perform the hand-off, push the updated image (failure
returns `false`), otherwise return `true`. -/
def captureCallback (pullResult : Option Img) (pushOk : Img → Bool) (f : Frame) :
    CbOutcome :=
  match pullResult with
  | none => ⟨false, none, none⟩
  | some img =>
    let img2 := handoffImage img f
    if pushOk img2 then ⟨true, some img2, some img2⟩
    else ⟨false, none, some img2⟩

/-- The frame callback block registered by `sc_display_t::dummy_img`
(display.mm lines 108-132): perform the hand-off on the probe image and
return `false` (the stop signal) unconditionally. -/
def dummyImgCallback (f : Frame) (img : Img) : Bool × Img :=
  (false, handoffImage img f)

/-! ## Retain discipline of the hand-off (temp_retain_av_img_t)

The callback bodies are straight-line code; for the temporal claim about the
Retain Guard we embed them as an explicit instruction sequence acting on a
state that tracks the reference counts of the image's *old* sample wrapper and
*old* pixel wrapper, plus which fields have been overwritten so far.  Before
the callback runs, the image holds the single reference to each old wrapper
(count 1).  Constructing `temp_retain_av_img_t` copies both shared pointers
(count +1); each shared-pointer field assignment drops the image's reference
to the old wrapper (count -1); resetting the retainer to `nullptr` drops the
guard's references (count -1 each). -/

/-- One statement of the hand-off window in the callback bodies
(display.mm lines 52-67 and 114-129). -/
inductive HandoffInstr
  | mkGuard
  | setSampleWrapper
  | setPixelWrapper
  | setDataPtr
  | setWidth
  | setHeight
  | setRowPitch
  | setPixelPitch
  | releaseGuard
deriving DecidableEq, Repr

/-- Reference counts of the old wrappers plus overwrite progress. -/
structure HandoffSt where
  oldSampleRC : Nat
  oldPixelRC : Nat
  guardConstructed : Bool
  guardLive : Bool
  sampleOverwritten : Bool
  pixelOverwritten : Bool
  dataOverwritten : Bool
  widthOverwritten : Bool
  heightOverwritten : Bool
  rowPitchOverwritten : Bool
  pixelPitchOverwritten : Bool
deriving DecidableEq, Repr

/-- State on entry to the callback: the image alone owns the old sample
wrapper and the old pixel wrapper (one reference each), no guard exists and no
field has been overwritten. -/
def handoffEntry : HandoffSt :=
  { oldSampleRC := 1, oldPixelRC := 1,
    guardConstructed := false, guardLive := false,
    sampleOverwritten := false, pixelOverwritten := false,
    dataOverwritten := false, widthOverwritten := false,
    heightOverwritten := false, rowPitchOverwritten := false,
    pixelPitchOverwritten := false }

/-- Effect of one statement on the retain-count state. -/
def stepInstr (s : HandoffSt) : HandoffInstr → HandoffSt
  | .mkGuard =>
      { s with oldSampleRC := s.oldSampleRC + 1, oldPixelRC := s.oldPixelRC + 1,
               guardConstructed := true, guardLive := true }
  | .setSampleWrapper =>
      { s with sampleOverwritten := true, oldSampleRC := s.oldSampleRC - 1 }
  | .setPixelWrapper =>
      { s with pixelOverwritten := true, oldPixelRC := s.oldPixelRC - 1 }
  | .setDataPtr => { s with dataOverwritten := true }
  | .setWidth => { s with widthOverwritten := true }
  | .setHeight => { s with heightOverwritten := true }
  | .setRowPitch => { s with rowPitchOverwritten := true }
  | .setPixelPitch => { s with pixelPitchOverwritten := true }
  | .releaseGuard =>
      { s with guardLive := false,
               oldSampleRC := s.oldSampleRC - 1, oldPixelRC := s.oldPixelRC - 1 }

/-- Execute a statement sequence from a given state. -/
def execInstrs (l : List HandoffInstr) (s : HandoffSt) : HandoffSt :=
  l.foldl stepInstr s

/-- The statement order of the hand-off window in the `capture` frame callback
(display.mm lines 52-67): construct the retainer, assign the three
pointer-carrying fields, assign the four geometry fields, reset the retainer. -/
def captureHandoffSeq : List HandoffInstr :=
  [.mkGuard, .setSampleWrapper, .setPixelWrapper, .setDataPtr,
   .setWidth, .setHeight, .setRowPitch, .setPixelPitch, .releaseGuard]

/-- The statement order of the hand-off window in the `dummy_img` probe
callback (display.mm lines 114-129); identical to the `capture` sequence. -/
def dummyImgHandoffSeq : List HandoffInstr :=
  [.mkGuard, .setSampleWrapper, .setPixelWrapper, .setDataPtr,
   .setWidth, .setHeight, .setRowPitch, .setPixelPitch, .releaseGuard]

/-- Some field of the image has been overwritten. -/
def anyFieldOverwritten (s : HandoffSt) : Bool :=
  s.sampleOverwritten || s.pixelOverwritten || s.dataOverwritten ||
  s.widthOverwritten || s.heightOverwritten || s.rowPitchOverwritten ||
  s.pixelPitchOverwritten

/-- All fields of the image have been overwritten with the new frame's
values. -/
def allFieldsOverwritten (s : HandoffSt) : Bool :=
  s.sampleOverwritten && s.pixelOverwritten && s.dataOverwritten &&
  s.widthOverwritten && s.heightOverwritten && s.rowPitchOverwritten &&
  s.pixelPitchOverwritten

/-! ## ApolloScreenCapture: stream state machine (screencapture.mm) -/

/-- State of an `ApolloScreenCapture` object as far as start/stop and the
blocking `capture()` are concerned: whether the stream is capturing, whether a
capture semaphore exists (`capture:` creates one), how many times that
semaphore has been signalled, and how many frames were delivered to the
callback (instrumentation; no source statement reads it). -/
structure SCState where
  isCapturing : Bool
  semSet : Bool
  semSignals : Nat
  framesDelivered : Nat
deriving DecidableEq, Repr

/-- `-[ApolloScreenCapture stopCapture]` (screencapture.mm lines 178-192):
early-return when not capturing; otherwise stop the stream, clear
`isCapturing`, and signal the capture semaphore if one exists. -/
def stopCapture (s : SCState) : SCState :=
  if !s.isCapturing then s
  else
    { s with isCapturing := false,
             semSignals := if s.semSet then s.semSignals + 1 else s.semSignals }

/-- `-[ApolloScreenCapture stream:didOutputSampleBuffer:ofType:]`
(screencapture.mm lines 333-344): invoke the frame callback; if it returns
`false`, call `stopCapture`.  `cbCont` is the callback's return value. -/
def didOutputSampleBuffer (cbCont : Bool) (s : SCState) : SCState :=
  let s1 := { s with framesDelivered := s.framesDelivered + 1 }
  if cbCont then s1 else stopCapture s1

/-- `-[ApolloScreenCapture capture:]` (screencapture.mm lines 160-176):
install the frame callback, create a fresh capture semaphore, and start the
stream; on start failure the completion handler signals the semaphore, on
success it sets `isCapturing`.  `startOk` is the outcome of
`startCaptureWithCompletionHandler`. -/
def scCaptureArm (startOk : Bool) (s : SCState) : SCState :=
  let s1 := { s with semSet := true, semSignals := 0 }
  if startOk then { s1 with isCapturing := true }
  else { s1 with semSignals := s1.semSignals + 1 }

/-- Serialized frame delivery by the native framework while the stream is
capturing: each delivered frame runs the `capture` callback through
`didOutputSampleBuffer`; a `false` return stops the stream and ends delivery.
Returns the number of frames the callback processed and the final stream
state.  `pull` supplies the consumer's `pull_free_image_cb` result for the
n-th delivery. -/
def runDeliveries (pull : Nat → Option Img) (pushOk : Img → Bool) :
    List Frame → Nat → SCState → Nat × SCState
  | [], n, s => (n, s)
  | f :: fs, n, s =>
    if s.isCapturing then
      let out := captureCallback (pull n) pushOk f
      let s2 := didOutputSampleBuffer out.cont s
      if out.cont then runDeliveries pull pushOk fs (n + 1) s2
      else (n + 1, s2)
    else (n, s)

/-- The result enumeration of `display_t::capture` (platform/common.h). -/
inductive capture_e
  | ok
  | reinit
  | timeout
  | interrupted
  | error
deriving DecidableEq, Repr

/-- `sc_display_t::capture` (display.mm lines 41-79): arm the stream via
`[sc_capture capture:...]`, let the native layer deliver frames to the
callback, block on the returned semaphore, and return `capture_e::ok`
(line 78; the source has no other return statement). -/
def sc_capture (startOk : Bool) (frames : List Frame) (pull : Nat → Option Img)
    (pushOk : Img → Bool) (s : SCState) : capture_e × Nat × SCState :=
  let s1 := scCaptureArm startOk s
  if startOk then
    let r := runDeliveries pull pushOk frames 0 s1
    (capture_e.ok, r.1, r.2)
  else
    (capture_e.ok, 0, s1)

/-! ## dummy_img: the permission probe (display.mm lines 103-137) -/

/-- Result of one `dummy_img` call: the returned status, whether the native
capture path (`[sc_capture capture:...]`) was invoked, how many frames the
probe callback processed, and the probe image afterwards. -/
structure DummyRun where
  status : Nat
  nativeCaptureInvoked : Bool
  framesProcessed : Nat
  img : Img
deriving DecidableEq, Repr

/-- Serialized frame delivery for the probe: frames are handed to the probe
callback until it returns `false` (which stops the stream). -/
def runProbeStream (cb : Frame → Img → Bool × Img) :
    List Frame → Img → Nat × Img
  | [], img => (0, img)
  | f :: fs, img =>
    let r := cb f img
    if r.1 then
      let rest := runProbeStream cb fs r.2
      (rest.1 + 1, rest.2)
    else (1, r.2)

/-- `sc_display_t::dummy_img` (display.mm lines 103-137): return 1 without
touching the native capture path when `platf::is_screen_capture_allowed()` is
false; otherwise run the probe callback over the delivered frames (the
callback performs the hand-off and returns `false` after the first frame),
block on the semaphore, and return 0.  `allowed` is the permission probe's
result; `frames` is what the armed stream delivers. -/
def dummy_img (allowed : Bool) (frames : List Frame) (img : Img) : DummyRun :=
  if !allowed then
    { status := 1, nativeCaptureInvoked := false, framesProcessed := 0, img := img }
  else
    let r := runProbeStream dummyImgCallback frames img
    { status := 0, nativeCaptureInvoked := true, framesProcessed := r.1, img := r.2 }

/-! ## Encode-device selection (display.mm lines 85-97, nv12_zero_device.cpp) -/

/-- `platf::pix_fmt_e` (platform/common.h): the requested encoder pixel
formats relevant here, plus the remaining members that fall into the
unsupported branch. -/
inductive pix_fmt_e
  | yuv420p
  | yuv420p10
  | nv12
  | p010
  | unknown
deriving DecidableEq, Repr

/-- The `OSType` pixel-format constants written into the session. -/
inductive OSTypeFmt
  | bgra32
  | biplanar420v8
  | biplanar420v10
deriving DecidableEq, Repr

/-- The session configuration visible to the adapter: the
`ApolloScreenCapture.pixelFormat` property. -/
structure Session where
  pixelFormat : OSTypeFmt
deriving DecidableEq, Repr

/-- The kind of device `make_avcodec_encode_device` returns: either a plain
`avcodec_encode_device_t` (conversion path) or an initialized
`nv12_zero_device` (zero-copy path). -/
inductive EncodeDevice
  | standard
  | zeroCopy
deriving DecidableEq, Repr

/-- The `switch (pix_fmt)` in `nv12_zero_device::init`
(nv12_zero_device.cpp lines 52-63): nv12 selects the 8-bit bi-planar
4:2:0 video-range format, p010 the 10-bit one, and the default case the
8-bit one. -/
def nv12_init_pixel_format : pix_fmt_e → OSTypeFmt
  | .nv12 => .biplanar420v8
  | .p010 => .biplanar420v10
  | _ => .biplanar420v8

/-- `nv12_zero_device::init` (nv12_zero_device.cpp lines 51-73) as it affects
the session: call the pixel-format hook (`sc_display_t::setPixelFormat`, which
assigns `ApolloScreenCapture.pixelFormat`) with the format selected by the
switch; the device is then the initialized zero-copy device. -/
def nv12_zero_device_init (s : Session) (fmt : pix_fmt_e) : Session × EncodeDevice :=
  ({ s with pixelFormat := nv12_init_pixel_format fmt }, .zeroCopy)

/-- `sc_display_t::make_avcodec_encode_device` (display.mm lines 85-97):
yuv420p reconfigures the session to 32BGRA and returns a plain conversion
device; nv12 and p010 construct an `nv12_zero_device` and run its `init`
(which reconfigures the session via the pixel-format hook); anything else
logs "Unsupported Pixel Format." and returns null. -/
def make_avcodec_encode_device (s : Session) (fmt : pix_fmt_e) :
    Session × Option EncodeDevice :=
  if fmt = .yuv420p then
    ({ s with pixelFormat := .bgra32 }, some .standard)
  else if fmt = .nv12 || fmt = .p010 then
    let r := nv12_zero_device_init s fmt
    (r.1, some r.2)
  else
    (s, none)

/-! ## nv12_zero_device::convert (nv12_zero_device.cpp lines 27-41) -/

/-- The encoder's `AVFrame` as far as `convert` touches it: the buffer-ref
binding `buf[0]` and the plane pointer `data[3]`, both holding the identity of
the bound native pixel buffer when non-null. -/
structure EncFrame where
  buf0 : Option Nat
  data3 : Option Nat
deriving DecidableEq, Repr

/-- `av_buffer_unref(&frame->buf[0])`: when a buffer is bound, drop one
reference to it in the refcount world (the buffer-ref's `free_buffer`
releases the pixel buffer). -/
def unrefBuf (world : Nat → Nat) (b : Option Nat) : Nat → Nat :=
  match b with
  | none => world
  | some o => fun x => if x = o then world o - 1 else world x

/-- `CFRetain` on a pixel buffer: one more reference. -/
def retainBuf (world : Nat → Nat) (b : Nat) : Nat → Nat :=
  fun x => if x = b then world b + 1 else world x

/-- `nv12_zero_device::convert` (nv12_zero_device.cpp lines 27-41): if the
image's pixel wrapper is null or its inner buffer handle is null, return -1
touching nothing; otherwise unref the frame's previous `buf[0]` binding,
retain the native pixel buffer, bind `buf[0]` and `data[3]` to it and return
0.  No statement reads or writes pixel data.  Returns
(status, frame, refcount world). -/
def nv12_convert (img : Img) (fr : EncFrame) (world : Nat → Nat) :
    Int × EncFrame × (Nat → Nat) :=
  match img.pixelBuffer with
  | none => (-1, fr, world)
  | some pw =>
    match pw.buf with
    | none => (-1, fr, world)
    | some b =>
      let world1 := unrefBuf world fr.buf0
      let world2 := retainBuf world1 b
      (0, { buf0 := some b, data3 := some b }, world2)

/-! ## Display selection (display.mm lines 148-183, screencapture.mm lines
65-89 of initWithDisplay) -/

/-- The display-selection loop of `platf::display` (display.mm lines
156-167): `display->display_id` starts as the main display id; for each
enumerated display, if the requested name is non-empty and its `atoi` value
equals the display's id, the id is taken.  `nameVal` is `none` for an empty
`display_name` and `some (atoi display_name)` otherwise. -/
def selectDisplayId (nameVal : Option Nat) (ids : List Nat) (mainId : Nat) : Nat :=
  ids.foldl
    (fun cur i =>
      match nameVal with
      | some v => if v = i then i else cur
      | none => cur)
    mainId

/-- The target-display resolution inside the shareable-content handler of
`initWithDisplay:` (screencapture.mm lines 72-89): search the content's
displays for the stored display id; if absent and at least one display
exists, fall back to the first one (and store its id); with no display at
all the setup fails (`nil` session).  The returned value is the id stored in
`self.displayID` and bound to the stream. -/
def resolveTargetDisplay (requestedId : Nat) (contentDisplays : List Nat) :
    Option Nat :=
  match contentDisplays.find? (fun d => d = requestedId) with
  | some d => some d
  | none => contentDisplays.head?

/-! ## Concrete inputs used by witnesses and counterexamples -/

/-- A representative delivered frame: 1920x1080 BGRA, 7680 bytes per row. -/
def frame1 : Frame :=
  { sampleId := 10, bufId := 11, dataPtr := 4096,
    width := 1920, height := 1080, rowPitch := 7680 }

/-- A (degenerate) delivered frame whose pixel-buffer queries report zero
dimensions. -/
def frameZeroW : Frame :=
  { sampleId := 1, bufId := 2, dataPtr := 3,
    width := 0, height := 0, rowPitch := 64 }

/-- An `ApolloScreenCapture` before any `capture:` call. -/
def scIdle : SCState :=
  { isCapturing := false, semSet := false, semSignals := 0, framesDelivered := 0 }

/-- An `ApolloScreenCapture` right after a successful `capture:` call, before
any frame delivery. -/
def scArmed : SCState :=
  { isCapturing := true, semSet := true, semSignals := 0, framesDelivered := 0 }

/-! ## Properties -/

/-- The state of the hand-off window after its first `n` statements. -/
def handoffStAt (seq : List HandoffInstr) (n : Nat) : HandoffSt :=
  execInstrs (seq.take n) handoffEntry

/-- The guard discipline over every prefix of a hand-off statement sequence:
the guard is constructed before any field is overwritten; once constructed it
is released only after all fields are overwritten; inside the overwrite
window the old sample wrapper and old pixel wrapper each keep at least one
reference; and while the guard is live the old wrappers are alive. -/
def guardDisciplined (seq : List HandoffInstr) : Prop :=
  ∀ n, n ≤ seq.length →
    (anyFieldOverwritten (handoffStAt seq n) = true →
      (handoffStAt seq n).guardConstructed = true) ∧
    ((handoffStAt seq n).guardConstructed = true →
      (handoffStAt seq n).guardLive = false →
      allFieldsOverwritten (handoffStAt seq n) = true) ∧
    (anyFieldOverwritten (handoffStAt seq n) = true →
      allFieldsOverwritten (handoffStAt seq n) = false →
      1 ≤ (handoffStAt seq n).oldSampleRC ∧ 1 ≤ (handoffStAt seq n).oldPixelRC) ∧
    ((handoffStAt seq n).guardLive = true →
      1 ≤ (handoffStAt seq n).oldSampleRC ∧ 1 ≤ (handoffStAt seq n).oldPixelRC)

/-- C1: in both the `capture` frame callback and the `dummy_img` probe
callback, the retainer (`temp_retain_av_img_t`) holding the image's old
sample wrapper, old pixel wrapper and old data pointer is constructed before
any field of the target image is overwritten and is released only after all
fields are overwritten with the new frame's values; at no point inside the
overwrite window does either old buffer lose its last reference, and the old
references are dropped (counts reach zero) only once the full sequence,
ending in the explicit release, has run. -/
theorem c1_guard_construct_overwrite_release_order :
    guardDisciplined captureHandoffSeq ∧ guardDisciplined dummyImgHandoffSeq ∧
    allFieldsOverwritten (execInstrs captureHandoffSeq handoffEntry) = true ∧
    (execInstrs captureHandoffSeq handoffEntry).oldSampleRC = 0 ∧
    (execInstrs captureHandoffSeq handoffEntry).oldPixelRC = 0 ∧
    allFieldsOverwritten (execInstrs dummyImgHandoffSeq handoffEntry) = true ∧
    (execInstrs dummyImgHandoffSeq handoffEntry).oldSampleRC = 0 ∧
    (execInstrs dummyImgHandoffSeq handoffEntry).oldPixelRC = 0 := by
  refine ⟨?_, ?_, by decide, by decide, by decide, by decide, by decide, by decide⟩ <;>
    · unfold guardDisciplined
      decide

/-- Witness for C1 at the concrete prefix of length 3 (retainer constructed,
sample and pixel wrappers overwritten): the old wrappers are still alive. -/
theorem c1_witness_old_buffers_alive_mid_window :
    1 ≤ (handoffStAt captureHandoffSeq 3).oldSampleRC ∧
    1 ≤ (handoffStAt captureHandoffSeq 3).oldPixelRC := by
  have h := c1_guard_construct_overwrite_release_order.1
  unfold guardDisciplined at h
  exact (h 3 (by decide)).2.2.1 (by decide) (by decide)

/-- C2: for every delivered frame, the image the hand-off makes
consumer-visible (the one accepted by `push_captured_image_cb`, and likewise
the probe image after `dummy_img`'s callback) satisfies
`pixel_pitch = row_pitch / width` under integer division, where width, height
and row_pitch are exactly the values queried from the newly installed pixel
buffer. -/
theorem c2_pixel_pitch_from_new_buffer :
    (∀ (img : Img) (pushOk : Img → Bool) (f : Frame) (i : Img),
      (captureCallback (some img) pushOk f).pushed = some i →
      i.pixelPitch = i.rowPitch / i.width ∧
      i.width = f.width ∧ i.height = f.height ∧ i.rowPitch = f.rowPitch) ∧
    (∀ (f : Frame) (img : Img),
      ((dummyImgCallback f img).2).pixelPitch =
        ((dummyImgCallback f img).2).rowPitch / ((dummyImgCallback f img).2).width ∧
      ((dummyImgCallback f img).2).width = f.width ∧
      ((dummyImgCallback f img).2).height = f.height ∧
      ((dummyImgCallback f img).2).rowPitch = f.rowPitch) := by
  constructor
  · intro img pushOk f i h
    unfold captureCallback at h
    by_cases hp : pushOk (handoffImage img f) = true
    · simp only [hp, if_pos] at h
      cases h
      simp [handoffImage]
    · simp only [Bool.not_eq_true] at hp
      simp [hp] at h
  · intro f img
    simp [dummyImgCallback, handoffImage]

/-- Witness for C2: the concrete 1920x1080 frame pushed from a freshly
allocated image satisfies the pitch equation. -/
theorem c2_witness_concrete_frame :
    (handoffImage alloc_img frame1).pixelPitch =
      (handoffImage alloc_img frame1).rowPitch /
        (handoffImage alloc_img frame1).width :=
  (c2_pixel_pitch_from_new_buffer.1 alloc_img (fun _ => true) frame1
    (handoffImage alloc_img frame1) rfl).1

/-- C3: `dummy_img` returns the distinct non-zero status 1 without invoking
the native capture path when the screen-capture permission probe reports
false; otherwise it invokes the native path, its probe callback returns the
stop signal unconditionally, so exactly one frame makes a synchronous round
trip, and the call returns success (0). -/
theorem c3_dummy_img_permission_and_single_round_trip :
    (∀ (frames : List Frame) (img : Img),
      (dummy_img false frames img).status = 1 ∧
      (dummy_img false frames img).nativeCaptureInvoked = false ∧
      (dummy_img false frames img).framesProcessed = 0) ∧
    (∀ (f : Frame) (img : Img), (dummyImgCallback f img).1 = false) ∧
    (∀ (f : Frame) (fs : List Frame) (img : Img),
      (dummy_img true (f :: fs) img).status = 0 ∧
      (dummy_img true (f :: fs) img).nativeCaptureInvoked = true ∧
      (dummy_img true (f :: fs) img).framesProcessed = 1) := by
  refine ⟨?_, ?_, ?_⟩
  · intro frames img
    simp [dummy_img]
  · intro f img
    rfl
  · intro f fs img
    simp [dummy_img, runProbeStream, dummyImgCallback]

/-- C4: `make_avcodec_encode_device` selects by requested pixel format:
yuv420p reconfigures the session to 32BGRA and returns the standard
conversion device; nv12 and p010 return the zero-copy device after its `init`
reconfigures the session's pixel format through the pixel-format hook to the
8-bit resp. 10-bit bi-planar 4:2:0 type; every other format returns null and
leaves the session untouched — the only user-visible error from this
component. -/
theorem c4_encode_device_selection :
    ∀ s : Session,
      make_avcodec_encode_device s .yuv420p =
        ({ pixelFormat := .bgra32 }, some .standard) ∧
      make_avcodec_encode_device s .nv12 =
        ({ pixelFormat := .biplanar420v8 }, some .zeroCopy) ∧
      make_avcodec_encode_device s .p010 =
        ({ pixelFormat := .biplanar420v10 }, some .zeroCopy) ∧
      (∀ fmt : pix_fmt_e, fmt ≠ .yuv420p → fmt ≠ .nv12 → fmt ≠ .p010 →
        make_avcodec_encode_device s fmt = (s, none)) := by
  intro s
  refine ⟨rfl, rfl, rfl, ?_⟩
  intro fmt h1 h2 h3
  cases fmt <;> simp_all [make_avcodec_encode_device]

/-- Witness for C4: requesting the (unsupported) 10-bit planar format on a
session configured for 32BGRA returns null and changes nothing. -/
theorem c4_witness_unsupported_format :
    make_avcodec_encode_device { pixelFormat := .bgra32 } .yuv420p10 =
      ({ pixelFormat := .bgra32 }, none) :=
  (c4_encode_device_selection { pixelFormat := .bgra32 }).2.2.2 .yuv420p10
    (by decide) (by decide) (by decide)

/-- C5 counterexample: when the native stream could not be armed (the start
request fails, so no frame is ever delivered), `sc_display_t::capture` still
returns `capture_e::ok` — not an error result.  The claim that arming failure
yields an error is false of the code, whose only return statement is
`return capture_e::ok`. -/
theorem c5_counterexample_arm_failure_returns_ok :
    (sc_capture false [] (fun _ => none) (fun _ => false) scIdle).1 =
      capture_e.ok ∧
    capture_e.ok ≠ capture_e.error :=
  ⟨rfl, by decide⟩

/-- C5 amended: `sc_display_t::capture` returns `capture_e::ok`
unconditionally — the non-error (stopped/ok) result when the consumer
callbacks request termination or the session is stopped, and the same
`capture_e::ok` (arming failure is logged, never surfaced as an error
result) when the start request fails. -/
theorem c5_amended_capture_always_returns_ok :
    ∀ (startOk : Bool) (frames : List Frame) (pull : Nat → Option Img)
      (pushOk : Img → Bool) (s : SCState),
      (sc_capture startOk frames pull pushOk s).1 = capture_e.ok := by
  intro startOk frames pull pushOk s
  cases startOk <;> simp [sc_capture]

/-- C6: in the `capture` frame callback, a `pull_free_image_cb` failure drops
the frame — no image is obtained or modified, nothing is pushed — and the
callback returns `false` (the stop signal); a `push_captured_image_cb`
failure after the hand-off likewise makes the callback return `false` with
nothing delivered; and the native layer reacts to a `false` callback return
by stopping the stream (clearing `isCapturing` and signalling the capture
semaphore), while a `true` return leaves it capturing. -/
theorem c6_callback_failure_signals_stop :
    (∀ (pushOk : Img → Bool) (f : Frame),
      captureCallback none pushOk f = ⟨false, none, none⟩) ∧
    (∀ (img : Img) (pushOk : Img → Bool) (f : Frame),
      pushOk (handoffImage img f) = false →
      (captureCallback (some img) pushOk f).cont = false ∧
      (captureCallback (some img) pushOk f).pushed = none) ∧
    (∀ s : SCState, s.isCapturing = true →
      (didOutputSampleBuffer false s).isCapturing = false ∧
      (s.semSet = true →
        (didOutputSampleBuffer false s).semSignals = s.semSignals + 1)) ∧
    (∀ s : SCState, (didOutputSampleBuffer true s).isCapturing = s.isCapturing) := by
  refine ⟨?_, ?_, ?_, ?_⟩
  · intro pushOk f
    rfl
  · intro img pushOk f h
    simp [captureCallback, h]
  · intro s hc
    constructor
    · simp [didOutputSampleBuffer, stopCapture, hc]
    · intro hs
      simp [didOutputSampleBuffer, stopCapture, hc, hs]
  · intro s
    simp [didOutputSampleBuffer]

/-- Witness for C6: a consumer that rejects the concrete 1920x1080 frame
makes the callback return the stop signal, and the capturing stream reacts by
stopping. -/
theorem c6_witness_rejecting_consumer :
    (captureCallback (some alloc_img) (fun _ => false) frame1).cont = false ∧
    (didOutputSampleBuffer false scArmed).isCapturing = false := by
  constructor
  · exact (c6_callback_failure_signals_stop.2.1 alloc_img (fun _ => false)
      frame1 rfl).1
  · exact (c6_callback_failure_signals_stop.2.2.1 scArmed rfl).1

/-- C7: `nv12_zero_device::convert` returns -1 and touches neither the
encoder frame's binding nor any reference count when the image's pixel
wrapper is null or the wrapper's native buffer handle is null; otherwise it
returns 0 after unreferencing the previous `buf[0]` binding, retaining the
native pixel buffer, and binding `buf[0]` and `data[3]` to it (no pixel data
is read or written on either path). -/
theorem c7_convert_null_guard_and_rebinding :
    (∀ (img : Img) (fr : EncFrame) (world : Nat → Nat),
      img.pixelBuffer = none →
      nv12_convert img fr world = (-1, fr, world)) ∧
    (∀ (img : Img) (fr : EncFrame) (world : Nat → Nat),
      img.pixelBuffer = some ⟨none⟩ →
      nv12_convert img fr world = (-1, fr, world)) ∧
    (∀ (img : Img) (fr : EncFrame) (world : Nat → Nat) (b o : Nat),
      img.pixelBuffer = some ⟨some b⟩ →
      fr.buf0 = some o → o ≠ b →
      (nv12_convert img fr world).1 = 0 ∧
      (nv12_convert img fr world).2.1 = { buf0 := some b, data3 := some b } ∧
      (nv12_convert img fr world).2.2 b = world b + 1 ∧
      (nv12_convert img fr world).2.2 o = world o - 1) := by
  refine ⟨?_, ?_, ?_⟩
  · intro img fr world h
    simp [nv12_convert, h]
  · intro img fr world h
    simp [nv12_convert, h]
  · intro img fr world b o hb ho hne
    simp [nv12_convert, hb, ho, retainBuf, unrefBuf, hne, Ne.symm hne]

/-- Witness for C7: rebinding the encoder frame from buffer 5 to buffer 11
through the concrete image succeeds, increments buffer 11's count and
decrements buffer 5's. -/
theorem c7_witness_rebind :
    (nv12_convert (handoffImage alloc_img frame1) { buf0 := some 5, data3 := some 5 }
        (fun _ => 1)).1 = 0 ∧
    (nv12_convert (handoffImage alloc_img frame1) { buf0 := some 5, data3 := some 5 }
        (fun _ => 1)).2.2 11 = 2 := by
  have h := c7_convert_null_guard_and_rebinding.2.2
    (handoffImage alloc_img frame1) { buf0 := some 5, data3 := some 5 }
    (fun _ => 1) 11 5 rfl rfl (by decide)
  exact ⟨h.1, h.2.2.1⟩

/-- C8: `stopCapture` is idempotent — while not capturing it is a no-op, and
a second stop after a first is the identity — and whenever the stream is
capturing with a capture semaphore installed it clears `isCapturing` and
signals the semaphore exactly once, releasing the blocked `capture()` call,
independent of how many frames (possibly zero) were ever delivered. -/
theorem c8_stop_idempotent_and_releases_capture :
    ∀ s : SCState,
      (s.isCapturing = false → stopCapture s = s) ∧
      stopCapture (stopCapture s) = stopCapture s ∧
      (s.isCapturing = true → s.semSet = true →
        (stopCapture s).isCapturing = false ∧
        (stopCapture s).semSignals = s.semSignals + 1 ∧
        (stopCapture s).framesDelivered = s.framesDelivered) := by
  intro s
  obtain ⟨c, ss, n, fd⟩ := s
  cases c <;> cases ss <;> simp [stopCapture]

/-- Witness for C8: a capturing stream with its semaphore installed and zero
frames delivered is released by `stopCapture` (one signal), and a second
`stopCapture` is a no-op. -/
theorem c8_witness_stop_with_no_frames :
    (stopCapture scArmed).semSignals = 1 ∧
    stopCapture (stopCapture scArmed) = stopCapture scArmed := by
  have h := c8_stop_idempotent_and_releases_capture scArmed
  exact ⟨(h.2.2 rfl rfl).2.1, h.2.1⟩

/-- C9 counterexample: the hand-off performs no validation of the queried
dimensions; a delivered frame whose pixel buffer reports zero width and
height is pushed to the consumer with `width = 0` and `height = 0`, so the
claim that every consumer-visible image after hand-off has positive
dimensions is false at this input. -/
theorem c9_counterexample_zero_dimension_frame :
    (captureCallback (some alloc_img) (fun _ => true) frameZeroW).pushed =
      some (handoffImage alloc_img frameZeroW) ∧
    ¬(0 < (handoffImage alloc_img frameZeroW).width ∧
      0 < (handoffImage alloc_img frameZeroW).height) :=
  ⟨rfl, by decide⟩

/-- C9 amended: after every hand-off the consumer-visible image's width and
height are exactly the dimensions queried from the newly installed pixel
buffer, copied without validation; they are positive — making the integer
division `row_pitch / width` well-defined — precisely when the delivered
native frame reports positive dimensions. -/
theorem c9_amended_dimensions_copied_from_frame :
    ∀ (img : Img) (f : Frame),
      (handoffImage img f).width = f.width ∧
      (handoffImage img f).height = f.height ∧
      (0 < f.width → 0 < (handoffImage img f).width) ∧
      (0 < f.height → 0 < (handoffImage img f).height) ∧
      (0 < f.width ↔ 0 < (handoffImage img f).width) := by
  intro img f
  simp [handoffImage]

/-- Witness for C9 (amended) at the concrete 1920x1080 frame: the hand-off
yields positive dimensions. -/
theorem c9_witness_positive_frame :
    0 < (handoffImage alloc_img frame1).width :=
  (c9_amended_dimensions_copied_from_frame alloc_img frame1).2.2.1 (by decide)

/-! Helper lemmas for the display-selection claim. -/

/-- The selection loop leaves the main display id in place when the requested
name value matches no enumerated id. -/
theorem selectDisplayId_of_no_match (nameVal : Option Nat) (ids : List Nat)
    (mainId : Nat) (h : ∀ i ∈ ids, nameVal ≠ some i) :
    selectDisplayId nameVal ids mainId = mainId := by
  induction ids generalizing mainId with
  | nil => rfl
  | cons x t ih =>
    have hx : nameVal ≠ some x := h x (List.mem_cons_self x t)
    have ht : ∀ i ∈ t, nameVal ≠ some i := fun i hi =>
      h i (List.mem_cons_of_mem x hi)
    cases nameVal with
    | none =>
      exact ih mainId ht
    | some v =>
      have hvx : ¬v = x := fun hv => hx (by rw [hv])
      simpa [selectDisplayId, List.foldl_cons, hvx] using ih mainId ht

/-- The selection loop returns a requested id that appears among the
enumerated ids, whatever the initial (main) id was. -/
theorem selectDisplayId_of_match (v : Nat) (ids : List Nat) (mainId : Nat)
    (h : v ∈ ids) : selectDisplayId (some v) ids mainId = v := by
  induction ids generalizing mainId with
  | nil => cases h
  | cons x t ih =>
    by_cases hvt : v ∈ t
    · by_cases hvx : v = x <;>
        simpa [selectDisplayId, List.foldl_cons, hvx] using ih _ hvt
    · have hvx : v = x := by
        rcases List.mem_cons.mp h with h1 | h1
        · exact h1
        · exact absurd h1 hvt
      have ht : ∀ i ∈ t, (some v : Option Nat) ≠ some i := by
        intro i hi hsome
        have hvi : v = i := Option.some.inj hsome
        exact hvt (hvi ▸ hi)
      simpa [selectDisplayId, List.foldl_cons, hvx] using
        selectDisplayId_of_no_match (some v) t x ht

/-- `find?` with an equality predicate returns the sought element when it is
present. -/
theorem find?_eq_of_mem (a : Nat) (l : List Nat) (h : a ∈ l) :
    l.find? (fun d => d = a) = some a := by
  induction l with
  | nil => cases h
  | cons x t ih =>
    by_cases hx : x = a
    · subst hx
      simp [List.find?_cons]
    · have ht : a ∈ t := by
        rcases List.mem_cons.mp h with h1 | h1
        · exact absurd h1.symm hx
        · exact h1
      simp [List.find?_cons, hx, ih ht]

/-- C10: the display-binding logic never yields a session bound to no
display.  In `platf::display`, an empty `display_name` — or one whose parsed
value matches no enumerated display id — leaves the session bound to the main
display, while a matching value binds that display; in `initWithDisplay:`,
a stored display id present in the shareable content is bound as is, an
absent one falls back to the first available display (whose id is stored),
and the resolution yields no display — failing setup with a nil session —
exactly when the shareable content lists no display at all.  (External setup
failures of the content query or output registration are outside this
resolution step.) -/
theorem c10_display_binding_never_empty :
    (∀ (ids : List Nat) (mainId : Nat),
      selectDisplayId none ids mainId = mainId) ∧
    (∀ (nameVal : Option Nat) (ids : List Nat) (mainId : Nat),
      (∀ i ∈ ids, nameVal ≠ some i) →
      selectDisplayId nameVal ids mainId = mainId) ∧
    (∀ (v : Nat) (ids : List Nat) (mainId : Nat),
      v ∈ ids → selectDisplayId (some v) ids mainId = v) ∧
    (∀ (requestedId : Nat) (ds : List Nat),
      requestedId ∈ ds →
      resolveTargetDisplay requestedId ds = some requestedId) ∧
    (∀ (requestedId d : Nat) (ds : List Nat),
      requestedId ∉ d :: ds →
      resolveTargetDisplay requestedId (d :: ds) = some d) ∧
    (∀ (requestedId : Nat) (ds : List Nat),
      resolveTargetDisplay requestedId ds = none ↔ ds = []) := by
  refine ⟨?_, ?_, ?_, ?_, ?_, ?_⟩
  · intro ids mainId
    exact selectDisplayId_of_no_match none ids mainId (by simp)
  · exact fun nameVal ids mainId h => selectDisplayId_of_no_match nameVal ids mainId h
  · exact fun v ids mainId h => selectDisplayId_of_match v ids mainId h
  · intro requestedId ds h
    simp [resolveTargetDisplay, find?_eq_of_mem requestedId ds h]
  · intro requestedId d ds h
    have hnone : (d :: ds).find? (fun x => x = requestedId) = none := by
      rw [List.find?_eq_none]
      intro x hx
      simp only [decide_eq_true_eq]
      intro hxr
      exact h (hxr ▸ hx)
    simp [resolveTargetDisplay, hnone]
  · intro requestedId ds
    cases ds with
    | nil => simp [resolveTargetDisplay]
    | cons d t =>
      constructor
      · intro hres
        exfalso
        unfold resolveTargetDisplay at hres
        cases hfind : (d :: t).find? (fun x => x = requestedId) with
        | none => simp [hfind] at hres
        | some x => simp [hfind] at hres
      · intro hcontra
        cases hcontra

/-- Witness for C10: with enumerated displays 5 and 7, the requested id 7 is
bound as is, and a requested id 9 absent from shareable content [5, 7] falls
back to the first display 5. -/
theorem c10_witness_match_and_fallback :
    resolveTargetDisplay 7 [5, 7] = some 7 ∧
    resolveTargetDisplay 9 [5, 7] = some 5 := by
  constructor
  · exact c10_display_binding_never_empty.2.2.2.1 7 [5, 7] (by decide)
  · exact c10_display_binding_never_empty.2.2.2.2.1 9 5 [7] (by decide)

end Apollo
